import Mathlib

/-!
Verification of the `vscode_progress` callback plugin
(`resources/callback_plugins/vscode_progress.py`).

The plugin taps Ansible lifecycle hooks and streams JSON-line events over a
Unix socket.  We embed its pure logic shallowly: Python values that can occur
in a task result become the inductive type `PyVal`, the sanitizer, the timing
table, the per-hook payload builders and `_send` become Lean functions, and
wall-clock instants become rationals (`ℚ`).
-/

/-- A Python value as it can appear in an Ansible result mapping:
strings, ints, floats (modelled as rationals), booleans, `None`,
lists, dicts (insertion-ordered association lists with unique keys,
as Python dicts are), and arbitrary non-JSON-serializable objects
carrying their `str()` representation. -/
inductive PyVal where
  | str (s : String)
  | int (n : Int)
  | num (q : ℚ)
  | bool (b : Bool)
  | pynone
  | list (xs : List PyVal)
  | dict (kvs : List (String × PyVal))
  | obj (s : String)

/-- Python truthiness (`if value:` / `value or {}`). -/
def pyTruthy : PyVal → Bool
  | .str s => !s.isEmpty
  | .int n => n != 0
  | .num q => q != 0
  | .bool b => b
  | .pynone => false
  | .list xs => !xs.isEmpty
  | .dict kvs => !kvs.isEmpty
  | .obj _ => true

mutual

/-- `repr`-style rendering of one value, used by Python `str()` on the
elements of a container (`str(value)` in the sanitizer's size check).
Nested strings are quoted; the exact numeral/escape details of CPython are
abstracted, the structural shape (brackets, separators, quoting) is kept. -/
def pyReprL : PyVal → List Char
  | .str s => '\x27' :: (s.data ++ ['\x27'])
  | .int n => (toString n).data
  | .num q => (toString q).data
  | .bool b => (if b then "True" else "False").data
  | .pynone => ("None").data
  | .obj s => s.data
  | .list xs => '[' :: (pyReprListL xs ++ [']'])
  | .dict kvs => '\x7b' :: (pyReprDictL kvs ++ ['\x7d'])

/-- Comma-joined `repr`s of list elements. -/
def pyReprListL : List PyVal → List Char
  | [] => []
  | [v] => pyReprL v
  | v :: vs => pyReprL v ++ (',' :: ' ' :: pyReprListL vs)

/-- Comma-joined `'key': repr(value)` entries of a dict. -/
def pyReprDictL : List (String × PyVal) → List Char
  | [] => []
  | [(k, v)] => '\x27' :: (k.data ++ ('\x27' :: ':' :: ' ' :: pyReprL v))
  | (k, v) :: tl =>
      '\x27' :: (k.data ++ ('\x27' :: ':' :: ' ' :: (pyReprL v ++ (',' :: ' ' :: pyReprDictL tl))))

end

/-- Python `str(value)`: a top-level string renders as itself, everything
else via `pyReprL`. -/
def pyStr (v : PyVal) : String :=
  match v with
  | .str s => s
  | v => String.mk (pyReprL v)

/-- Keys the sanitizer drops entirely (`omit_keys` in `_sanitize_result`). -/
def omit_keys : List String := [("ansible_facts"), ("ansible_env")]

/-- The truncation marker appended to over-long string values. -/
def TRUNC_MARKER : String := "\n... [truncated]"

/-- The replacement marker for over-large structured values. -/
def LARGE_MARKER : String := "[large data omitted]"

/-- The per-value branch of `_sanitize_result`'s loop body (the
`elif isinstance(value, str) and len(value) > 5000 / elif isinstance(value,
(dict, list)) and len(str(value)) > 10000 / else` chain). -/
def sanitize_value (v : PyVal) : PyVal :=
  match v with
  | .str s => if s.length > 5000 then .str (s.take 5000 ++ TRUNC_MARKER) else .str s
  | .list xs => if (pyStr (.list xs)).length > 10000 then .str LARGE_MARKER else .list xs
  | .dict kvs => if (pyStr (.dict kvs)).length > 10000 then .str LARGE_MARKER else .dict kvs
  | v => v

/-- `CallbackModule._sanitize_result`: non-dicts pass through; for dicts,
keys in `omit_keys` are dropped and every other value goes through
`sanitize_value`. -/
def sanitize_result (result : PyVal) : PyVal :=
  match result with
  | .dict kvs =>
      .dict (kvs.filterMap fun kv =>
        if kv.1 ∈ omit_keys then Option.none else some (kv.1, sanitize_value kv.2))
  | r => r

/-- Lookup of a key in a dict value (`d[key]` / `key in d` combined);
`Option.none` for absent keys and non-dicts. -/
def getKey (v : PyVal) (k : String) : Option PyVal :=
  match v with
  | .dict kvs => kvs.lookup k
  | _ => Option.none

/-- `d.get(key, default)` on a Python dict. -/
def dictGetD (kvs : List (String × PyVal)) (k : String) (d : PyVal) : PyVal :=
  (kvs.lookup k).getD d

/-! ## Numerals and JSON serialization (`json.dumps(..., default=str)`) -/

/-- The decimal digit character for `n % 10`. -/
def digitChar10 (n : Nat) : Char := Char.ofNat (48 + n % 10)

/-- Accumulator loop producing the decimal digits of `n`. -/
def natCharsAux (n : Nat) (acc : List Char) : List Char :=
  if h : n < 10 then digitChar10 n :: acc
  else natCharsAux (n / 10) (digitChar10 (n % 10) :: acc)
termination_by n
decreasing_by exact Nat.div_lt_self (by omega) (by omega)

/-- Decimal rendering of a natural number. -/
def natChars (n : Nat) : List Char := natCharsAux n []

/-- Decimal rendering of an integer. -/
def intChars (n : Int) : List Char :=
  if n < 0 then '-' :: natChars n.natAbs else natChars n.natAbs

/-- Rendering of a rational (the model of a Python float).  The exact CPython
float formatting is abstracted to an integer or `num/den` form; no claim
inspects the digits of a serialized number. -/
def ratChars (q : ℚ) : List Char :=
  if q.den = 1 then intChars q.num else intChars q.num ++ ('/' :: natChars q.den)

/-- The hexadecimal digit character for `n < 16`. -/
def hexDigit16 (n : Nat) : Char := Char.ofNat (if n < 10 then 48 + n else 87 + n)

/-- JSON string escaping of a single character, as `json.dumps` performs it:
quote, backslash and control characters are escaped, everything else is kept
(the optional `ensure_ascii` escaping of non-ASCII characters is immaterial
here and not modelled). -/
def escChar (c : Char) : List Char :=
  if c = '\x22' then ['\\', '\x22']
  else if c = '\\' then ['\\', '\\']
  else if c = '\n' then ['\\', 'n']
  else if c = '\r' then ['\\', 'r']
  else if c = '\t' then ['\\', 't']
  else if c.toNat < 32 then
    ['\\', 'u', '0', '0', hexDigit16 (c.toNat / 16), hexDigit16 (c.toNat % 16)]
  else [c]

/-- JSON escaping of a character sequence. -/
def escStringL (l : List Char) : List Char := l.foldr (fun c acc => escChar c ++ acc) []

/-- A JSON string literal: quoted, escaped. -/
def jsonStrL (s : String) : List Char := '\x22' :: (escStringL s.data ++ ['\x22'])

mutual

/-- Serialization of a value as `json.dumps(..., default=str)` does it.
A non-serializable `obj` is coerced to the JSON string of its `str()`
representation (the `default=str` argument); nothing raises. -/
def jsonSerL : PyVal → List Char
  | .str s => jsonStrL s
  | .int n => intChars n
  | .num q => ratChars q
  | .bool b => (if b then ("true") else ("false")).data
  | .pynone => ("null").data
  | .obj s => jsonStrL s
  | .list xs => '[' :: (jsonSerArrL xs ++ [']'])
  | .dict kvs => '\x7b' :: (jsonSerObjL kvs ++ ['\x7d'])

/-- Comma-joined serializations of array elements. -/
def jsonSerArrL : List PyVal → List Char
  | [] => []
  | [v] => jsonSerL v
  | v :: vs => jsonSerL v ++ (',' :: ' ' :: jsonSerArrL vs)

/-- Comma-joined `"key": value` members of an object. -/
def jsonSerObjL : List (String × PyVal) → List Char
  | [] => []
  | [(k, v)] => jsonStrL k ++ (':' :: ' ' :: jsonSerL v)
  | (k, v) :: tl => jsonStrL k ++ (':' :: ' ' :: (jsonSerL v ++ (',' :: ' ' :: jsonSerObjL tl)))

end

/-- `json.dumps(value, default=str)` as a string. -/
def jsonSer (v : PyVal) : String := String.mk (jsonSerL v)

/-! ## Timing (`time.time()` instants as rationals) and rounding -/

/-- Python `round(x)` to an integer: round-half-to-even (banker's rounding). -/
def roundHalfEven (x : ℚ) : ℤ :=
  let f := ⌊x⌋
  let r := x - f
  if r < 1 / 2 then f
  else if 1 / 2 < r then f + 1
  else if f % 2 = 0 then f else f + 1

/-- Python `round(x, 2)`. -/
def pyRound2 (x : ℚ) : ℚ := (roundHalfEven (x * 100) : ℚ) / 100

/-- The plugin's mutable attributes (`self._sock`, `self._start_time`,
`self._play_start_time`, `self._task_start_times`).  The socket is modelled
as an abstract handle: `some h` when connected, `Option.none` when absent or
the connect failed (the permanently-disabled state).  The timing table is the
insertion-ordered dict `uuid → time.time()`, newest binding first so that
lookup sees the latest assignment, as dict assignment overwrites. -/
structure CallbackState where
  sock : Option Nat
  start_time : Option ℚ
  play_start_time : Option ℚ
  task_start_times : List (String × ℚ)

/-- `__init__`: read `ANSIBLE_ENV_SOCKET`; absent path or failed connect
leaves `_sock = None` forever. -/
def plugin_init (socket_path : Option Nat) (connect_ok : Bool) : CallbackState :=
  match socket_path with
  | Option.none => ⟨Option.none, Option.none, Option.none, []⟩
  | some h => ⟨if connect_ok then some h else Option.none, Option.none, Option.none, []⟩

/-- The envelope dict `_send` serializes:
`{'type': event_type, 'timestamp': datetime.utcnow().isoformat() + 'Z',
'data': data or {}}`.  `now_iso` is the clock reading taken inside `_send`,
i.e. at send time. -/
def envelope_obj (event_type : String) (now_iso : String) (data : PyVal) : PyVal :=
  .dict [((r"type"), .str event_type),
         ((r"timestamp"), .str (now_iso ++ (r"Z"))),
         ((r"data"), if pyTruthy data then data else .dict [])]

/-- The full line `json.dumps(envelope, default=str) + '\n'`. -/
def envelope_line (event_type : String) (now_iso : String) (data : PyVal) : String :=
  String.mk (jsonSerL (envelope_obj event_type now_iso data) ++ ['\n'])

/-- `CallbackModule._send`.  `write_fails` models an exception anywhere in
the `try` block (serialization or `sendall`); the `except Exception: pass`
swallows it, leaving every attribute untouched and emitting nothing.  The
returned pair is the state after the call and the line written to the
socket, if any. -/
def plugin_send (st : CallbackState) (write_fails : Bool) (now_iso : String)
    (event_type : String) (data : PyVal) : CallbackState × Option String :=
  match st.sock with
  | Option.none => (st, Option.none)
  | some _ =>
      if write_fails then (st, Option.none)
      else (st, some (envelope_line event_type now_iso data))

/-! ## Hook-facing data and the per-hook payload builders -/

/-- The slice of an Ansible `Task` object the plugin reads. -/
structure AnsTask where
  name : String
  uuid : String
  action : String
  args : List (String × PyVal)
  has_args : Bool
  path : Option String

/-- The slice of an Ansible `Host` object the plugin reads. -/
structure Host where
  name : String

/-- The slice of an Ansible `TaskResult` object the plugin reads. -/
structure TaskResult where
  host : Host
  task : AnsTask
  result : List (String × PyVal)

/-- `None`-able string field (`task.get_path()` returns a string or `None`). -/
def optStr (s : Option String) : PyVal :=
  match s with
  | some x => .str x
  | Option.none => .pynone

/-- The `duration = time.time() - self._task_start_times[task_uuid]` step of
`_host_result`, guarded by `if task_uuid in self._task_start_times`, with
`duration = None` otherwise. -/
def duration_raw (table : List (String × ℚ)) (uuid : String) (now : ℚ) : Option ℚ :=
  match table.lookup uuid with
  | some t0 => some (now - t0)
  | Option.none => Option.none

/-- The `'duration': round(duration, 2) if duration else None` field: Python
truthiness sends both `None` and an exact `0.0` elapsed time to `None`. -/
def duration_field (d : Option ℚ) : PyVal :=
  match d with
  | some q => if q ≠ 0 then .num (pyRound2 q) else .pynone
  | Option.none => .pynone

/-- `CallbackModule._host_result`. -/
def host_result (st : CallbackState) (r : TaskResult) (now : ℚ) : List (String × PyVal) :=
  [((r"host"), .str r.host.name),
   ((r"task"), .str r.task.name),
   ((r"task_uuid"), .str r.task.uuid),
   ((r"action"), .str r.task.action),
   ((r"changed"), dictGetD r.result (r"changed") (.bool false)),
   ((r"duration"), duration_field (duration_raw st.task_start_times r.task.uuid now)),
   ((r"result"), sanitize_result (.dict r.result))]

/-- `os.path.basename` on slash-separated paths. -/
def basename (p : String) : String := (p.splitOn (r"/")).getLastD p

/-- `v2_playbook_on_start`: records `_start_time` and emits
`playbook_start`. -/
def v2_playbook_on_start (st : CallbackState) (now : ℚ) (file_name : String) :
    CallbackState × String × PyVal :=
  (⟨st.sock, some now, st.play_start_time, st.task_start_times⟩,
   (r"playbook_start"),
   .dict [((r"playbook"), .str (basename file_name)), ((r"path"), .str file_name)])

/-- `play.hosts if isinstance(play.hosts, list) else [play.hosts]`. -/
def ensureList (v : PyVal) : PyVal :=
  match v with
  | .list xs => .list xs
  | v => .list [v]

/-- `v2_playbook_on_play_start`: records `_play_start_time` and emits
`play_start`. -/
def v2_playbook_on_play_start (st : CallbackState) (now : ℚ)
    (name uuid : String) (hosts serial : PyVal) : CallbackState × String × PyVal :=
  (⟨st.sock, st.start_time, some now, st.task_start_times⟩,
   (r"play_start"),
   .dict [((r"name"), .str name), ((r"uuid"), .str uuid),
          ((r"hosts"), ensureList hosts), ((r"serial"), serial)])

/-- `v2_playbook_on_task_start`: stores the task's start time under its uuid
(overwriting any earlier entry) and emits `task_start`. -/
def v2_playbook_on_task_start (st : CallbackState) (now : ℚ) (task : AnsTask)
    (_is_conditional : Bool) : CallbackState × String × PyVal :=
  (⟨st.sock, st.start_time, st.play_start_time, (task.uuid, now) :: st.task_start_times⟩,
   (r"task_start"),
   .dict [((r"name"), .str task.name), ((r"uuid"), .str task.uuid),
          ((r"action"), .str task.action),
          ((r"args"), if task.has_args then .dict task.args else .dict []),
          ((r"path"), optStr task.path),
          ((r"is_handler"), .bool false)])

/-- `v2_playbook_on_handler_task_start`: same timing update, emits a
`task_start` event flagged `is_handler: True` (no `args`/`path` fields). -/
def v2_playbook_on_handler_task_start (st : CallbackState) (now : ℚ) (task : AnsTask) :
    CallbackState × String × PyVal :=
  (⟨st.sock, st.start_time, st.play_start_time, (task.uuid, now) :: st.task_start_times⟩,
   (r"task_start"),
   .dict [((r"name"), .str task.name), ((r"uuid"), .str task.uuid),
          ((r"action"), .str task.action), ((r"is_handler"), .bool true)])

/-- The per-host summary the stats hook builds from `stats.summarize(host)`
via `.get(field, 0)`. -/
def summaryOf (hs : List (String × PyVal)) : PyVal :=
  .dict [((r"ok"), dictGetD hs (r"ok") (.int 0)),
         ((r"changed"), dictGetD hs (r"changed") (.int 0)),
         ((r"failures"), dictGetD hs (r"failures") (.int 0)),
         ((r"unreachable"), dictGetD hs (r"unreachable") (.int 0)),
         ((r"skipped"), dictGetD hs (r"skipped") (.int 0)),
         ((r"rescued"), dictGetD hs (r"rescued") (.int 0)),
         ((r"ignored"), dictGetD hs (r"ignored") (.int 0))]

/-- The local `duration = time.time() - self._start_time if self._start_time
else 0` of `v2_playbook_on_stats` (Python truthiness: an unset — or exactly
zero — `_start_time` yields `0`). -/
def stats_duration (start_time : Option ℚ) (now : ℚ) : ℚ :=
  match start_time with
  | some t => if t ≠ 0 then now - t else 0
  | Option.none => 0

/-- `v2_playbook_on_stats`: computes the run duration and emits
`playbook_complete`. -/
def v2_playbook_on_stats (st : CallbackState) (now : ℚ)
    (stats : List (String × List (String × PyVal))) : String × PyVal :=
  ((r"playbook_complete"),
   .dict [((r"stats"), .dict (stats.map fun h => (h.1, summaryOf h.2))),
          ((r"duration"), .num (pyRound2 (stats_duration st.start_time now)))])

/-- `v2_playbook_on_include`. -/
def v2_playbook_on_include (filename : String) (hosts : List Host) : String × PyVal :=
  ((r"include"),
   .dict [((r"file"), .str filename),
          ((r"hosts"), .list (hosts.map fun h => PyVal.str h.name))])

/-- `v2_runner_on_start`: emits `host_task_start` with host, task name and
task uuid. -/
def v2_runner_on_start (host : Host) (task : AnsTask) : String × PyVal :=
  ((r"host_task_start"),
   .dict [((r"host"), .str host.name), ((r"task"), .str task.name),
          ((r"task_uuid"), .str task.uuid)])

/-- `v2_runner_on_ok`. -/
def v2_runner_on_ok (st : CallbackState) (r : TaskResult) (now : ℚ) : String × PyVal :=
  ((r"host_ok"), .dict (host_result st r now))

/-- `v2_runner_on_failed`: the host-result payload plus `ignore_errors`. -/
def v2_runner_on_failed (st : CallbackState) (r : TaskResult) (now : ℚ)
    (ignore_errors : Bool) : String × PyVal :=
  ((r"host_failed"),
   .dict (host_result st r now ++ [((r"ignore_errors"), .bool ignore_errors)]))

/-- `v2_runner_on_skipped`. -/
def v2_runner_on_skipped (st : CallbackState) (r : TaskResult) (now : ℚ) : String × PyVal :=
  ((r"host_skipped"), .dict (host_result st r now))

/-- `v2_runner_on_unreachable`. -/
def v2_runner_on_unreachable (st : CallbackState) (r : TaskResult) (now : ℚ) : String × PyVal :=
  ((r"host_unreachable"), .dict (host_result st r now))

/-- `v2_runner_item_on_ok`: adds `item` and `item_label`. -/
def v2_runner_item_on_ok (st : CallbackState) (r : TaskResult) (now : ℚ) : String × PyVal :=
  ((r"item_ok"),
   .dict (host_result st r now ++
     [((r"item"), dictGetD r.result (r"item") (.str (""))),
      ((r"item_label"), dictGetD r.result (r"ansible_loop_var") (.str (r"item")))]))

/-- `v2_runner_item_on_failed`: adds `item` only. -/
def v2_runner_item_on_failed (st : CallbackState) (r : TaskResult) (now : ℚ) : String × PyVal :=
  ((r"item_failed"),
   .dict (host_result st r now ++ [((r"item"), dictGetD r.result (r"item") (.str ("")))]))

/-- `v2_runner_item_on_skipped`: adds `item` only. -/
def v2_runner_item_on_skipped (st : CallbackState) (r : TaskResult) (now : ℚ) : String × PyVal :=
  ((r"item_skipped"),
   .dict (host_result st r now ++ [((r"item"), dictGetD r.result (r"item") (.str ("")))]))

/-- `v2_runner_retry`: adds `retries` and `attempts`. -/
def v2_runner_retry (st : CallbackState) (r : TaskResult) (now : ℚ) : String × PyVal :=
  ((r"host_retry"),
   .dict (host_result st r now ++
     [((r"retries"), dictGetD r.result (r"retries") (.int 0)),
      ((r"attempts"), dictGetD r.result (r"attempts") (.int 0))]))

/-- `v2_on_file_diff`: emits only when `result._result.get('diff')` is
truthy. -/
def v2_on_file_diff (r : TaskResult) : Option (String × PyVal) :=
  let d := dictGetD r.result (r"diff") (.pynone)
  if pyTruthy d then
    some ((r"file_diff"),
      .dict [((r"host"), .str r.host.name), ((r"task"), .str r.task.name),
             ((r"diff"), d)])
  else Option.none

/-- The fixed EventKind enumeration of the wire protocol. -/
def eventKinds : List String :=
  [(r"playbook_start"), (r"play_start"), (r"task_start"), (r"host_task_start"),
   (r"host_ok"), (r"host_failed"), (r"host_skipped"), (r"host_unreachable"),
   (r"item_ok"), (r"item_failed"), (r"item_skipped"), (r"host_retry"),
   (r"file_diff"), (r"include"), (r"playbook_complete")]

/-! ## Statement-level definitions -/

/-- The guard `isinstance(value, str) and len(value) > 5000` of the
truncation branch. -/
def isLongString : PyVal → Bool
  | .str s => 5000 < s.length
  | _ => false

/-- The guard `isinstance(value, (dict, list)) and len(str(value)) > 10000`
of the replacement branch. -/
def isBigStructure : PyVal → Bool
  | .list xs => 10000 < (pyStr (.list xs)).length
  | .dict kvs => 10000 < (pyStr (.dict kvs)).length
  | _ => false

/-- A 6000-character string, the input of end-to-end scenario C. -/
def s6000 : String := String.mk (List.replicate 6000 'a')

/-- The list of keys of a payload. -/
def payloadKeys (kvs : List (String × PyVal)) : List String := kvs.map Prod.fst

/-- The list of top-level keys of a dict value (empty for non-dicts). -/
def dictKeys (v : PyVal) : List String :=
  match v with
  | .dict kvs => payloadKeys kvs
  | _ => []

/-- A 10001-character string; wrapped in a list its `str()` form exceeds
10000 characters. -/
def big10001 : String := String.mk (List.replicate 10001 'b')

/-- A sample task object for concrete instantiations. -/
def sampleTask : AnsTask :=
  ⟨r"sample task", r"uuid-1", r"command", [((r"cmd"), PyVal.str (r"true"))], true,
   some (r"site.yml:7")⟩

/-- A sample host object for concrete instantiations. -/
def sampleHost : Host := ⟨r"web01"⟩

/-- A sample task result for concrete instantiations. -/
def sampleResult : TaskResult :=
  ⟨sampleHost, sampleTask, [((r"changed"), PyVal.bool true)]⟩

/-- A connected plugin state with an empty timing table. -/
def connectedState : CallbackState := ⟨some 0, Option.none, Option.none, []⟩

/-- A task result carrying a truthy `diff` key. -/
def diffResult : TaskResult :=
  ⟨sampleHost, sampleTask, [((r"diff"), PyVal.str (r"x"))]⟩

/-- A state whose timing table has task `abc` started at instant `5`. -/
def c2_state : CallbackState := ⟨some 0, Option.none, Option.none, [((r"abc"), 5)]⟩

/-- A task result whose task uuid is `abc`. -/
def c2_result : TaskResult :=
  ⟨⟨r"web01"⟩, ⟨r"task one", r"abc", r"command", [], true, Option.none⟩, []⟩

/-! ## Helper lemmas: no raw newline survives JSON serialization -/

theorem nl_digitChar10 (n : Nat) : digitChar10 n ≠ '\n' := by
  have h : n % 10 < 10 := Nat.mod_lt _ (by omega)
  have key : ∀ m, m < 10 → Char.ofNat (48 + m) ≠ '\n' := by decide
  exact key (n % 10) h

theorem nl_natCharsAux (n : Nat) (acc : List Char) (h : ∀ c ∈ acc, c ≠ '\n') :
    ∀ c ∈ natCharsAux n acc, c ≠ '\n' := by
  induction n using Nat.strong_induction_on generalizing acc with
  | _ n ih =>
    rw [natCharsAux.eq_def]
    split
    · intro c hc
      rcases List.mem_cons.mp hc with h1 | h1
      · subst h1; exact nl_digitChar10 n
      · exact h c h1
    · refine ih (n / 10) (Nat.div_lt_self (by omega) (by omega)) _ ?_
      intro c hc
      rcases List.mem_cons.mp hc with h1 | h1
      · subst h1; exact nl_digitChar10 (n % 10)
      · exact h c h1

theorem nl_natChars (n : Nat) : '\n' ∉ natChars n := fun hmem =>
  nl_natCharsAux n [] (by simp) '\n' hmem rfl

theorem nl_intChars (n : Int) : '\n' ∉ intChars n := by
  unfold intChars
  split
  · intro hmem
    rcases List.mem_cons.mp hmem with h1 | h1
    · exact absurd h1 (by decide)
    · exact nl_natChars _ h1
  · exact nl_natChars _

theorem nl_ratChars (q : ℚ) : '\n' ∉ ratChars q := by
  unfold ratChars
  split
  · exact nl_intChars _
  · intro hmem
    rcases List.mem_append.mp hmem with h1 | h1
    · exact nl_intChars _ h1
    · rcases List.mem_cons.mp h1 with h2 | h2
      · exact absurd h2 (by decide)
      · exact nl_natChars _ h2

theorem nl_hexDigit16 : ∀ m, m < 16 → hexDigit16 m ≠ '\n' := by decide

theorem nl_escChar (c : Char) : '\n' ∉ escChar c := by
  by_cases h1 : c = '\x22'
  · simp [escChar, h1]
  by_cases h2 : c = '\\'
  · simp [escChar, h1, h2]
  by_cases h3 : c = '\n'
  · simp [escChar, h1, h2, h3]
  by_cases h4 : c = '\r'
  · simp [escChar, h1, h2, h3, h4]
  by_cases h5 : c = '\t'
  · simp [escChar, h1, h2, h3, h4, h5]
  by_cases h6 : c.toNat < 32
  · have ha : hexDigit16 (c.toNat / 16) ≠ '\n' := nl_hexDigit16 _ (by omega)
    have hb : hexDigit16 (c.toNat % 16) ≠ '\n' := nl_hexDigit16 _ (Nat.mod_lt _ (by omega))
    intro hmem
    simp only [escChar, h1, h2, h3, h4, h5, h6, if_false, if_true, ite_true, ite_false,
      List.mem_cons, List.not_mem_nil, or_false] at hmem
    rcases hmem with h | h | h | h | h | h
    · exact absurd h (by decide)
    · exact absurd h (by decide)
    · exact absurd h (by decide)
    · exact absurd h (by decide)
    · exact ha h.symm
    · exact hb h.symm
  · intro hmem
    simp only [escChar, h1, h2, h3, h4, h5, h6, if_false, ite_false, List.mem_cons,
      List.not_mem_nil, or_false] at hmem
    exact h3 hmem.symm

theorem nl_escStringL (l : List Char) : '\n' ∉ escStringL l := by
  induction l with
  | nil => simp [escStringL]
  | cons c tl ih =>
    intro hmem
    have : escStringL (c :: tl) = escChar c ++ escStringL tl := rfl
    rw [this] at hmem
    rcases List.mem_append.mp hmem with h | h
    · exact nl_escChar c h
    · exact ih h

theorem nl_jsonStrL (s : String) : '\n' ∉ jsonStrL s := by
  intro hmem
  rcases List.mem_cons.mp hmem with h | h
  · exact absurd h (by decide)
  · rcases List.mem_append.mp h with h1 | h1
    · exact nl_escStringL _ h1
    · rcases List.mem_cons.mp h1 with h2 | h2
      · exact absurd h2 (by decide)
      · exact absurd h2 (List.not_mem_nil _)

mutual

theorem nl_jsonSerL : ∀ (v : PyVal), '\n' ∉ jsonSerL v
  | .str s => by simpa only [jsonSerL] using nl_jsonStrL s
  | .int n => by simpa only [jsonSerL] using nl_intChars n
  | .num q => by simpa only [jsonSerL] using nl_ratChars q
  | .bool b => by cases b <;> simp only [jsonSerL] <;> decide
  | .pynone => by simp only [jsonSerL]; decide
  | .obj s => by simpa only [jsonSerL] using nl_jsonStrL s
  | .list xs => by
      have h := nl_jsonSerArrL xs
      intro hmem
      simp only [jsonSerL, List.mem_cons, List.mem_append] at hmem
      rcases hmem with h1 | h1 | h1
      · exact absurd h1 (by decide)
      · exact h h1
      · rcases h1 with h2 | h2
        · exact absurd h2 (by decide)
        · exact absurd h2 (List.not_mem_nil _)
  | .dict kvs => by
      have h := nl_jsonSerObjL kvs
      intro hmem
      simp only [jsonSerL, List.mem_cons, List.mem_append] at hmem
      rcases hmem with h1 | h1 | h1
      · exact absurd h1 (by decide)
      · exact h h1
      · rcases h1 with h2 | h2
        · exact absurd h2 (by decide)
        · exact absurd h2 (List.not_mem_nil _)

theorem nl_jsonSerArrL : ∀ (xs : List PyVal), '\n' ∉ jsonSerArrL xs
  | [] => by simp [jsonSerArrL]
  | [v] => by simpa only [jsonSerArrL] using nl_jsonSerL v
  | v :: v2 :: vs => by
      have h1 := nl_jsonSerL v
      have h2 := nl_jsonSerArrL (v2 :: vs)
      intro hmem
      simp only [jsonSerArrL, List.mem_append, List.mem_cons] at hmem
      rcases hmem with h | h | h
      · exact h1 h
      · exact absurd h (by decide)
      · rcases h with h3 | h3
        · exact absurd h3 (by decide)
        · exact h2 (by simpa only [jsonSerArrL] using h3)

theorem nl_jsonSerObjL : ∀ (kvs : List (String × PyVal)), '\n' ∉ jsonSerObjL kvs
  | [] => by simp [jsonSerObjL]
  | [(k, v)] => by
      intro hmem
      simp only [jsonSerObjL, List.mem_append, List.mem_cons] at hmem
      rcases hmem with h | h | h | h
      · exact nl_jsonStrL k h
      · exact absurd h (by decide)
      · exact absurd h (by decide)
      · exact nl_jsonSerL v h
  | (k, v) :: kv2 :: tl => by
      have h2 := nl_jsonSerObjL (kv2 :: tl)
      intro hmem
      simp only [jsonSerObjL, List.mem_append, List.mem_cons] at hmem
      rcases hmem with h | h | h | h | h | h
      · exact nl_jsonStrL k h
      · exact absurd h (by decide)
      · exact absurd h (by decide)
      · exact nl_jsonSerL v h
      · exact absurd h (by decide)
      · rcases h with h3 | h3
        · exact absurd h3 (by decide)
        · exact h2 h3

end

/-! ## Helper lemmas: the sanitizer -/

theorem getKey_sanitize (kvs : List (String × PyVal)) (k : String) :
    getKey (sanitize_result (.dict kvs)) k =
      if k ∈ omit_keys then Option.none else (kvs.lookup k).map sanitize_value := by
  induction kvs with
  | nil => simp [sanitize_result, getKey]
  | cons hd tl ih =>
    obtain ⟨k0, v0⟩ := hd
    simp only [sanitize_result, getKey] at ih ⊢
    rw [List.filterMap_cons]
    by_cases h0 : k0 ∈ omit_keys
    · rw [if_pos h0, ih]
      by_cases hk : k = k0
      · subst hk
        rw [if_pos h0, List.lookup_cons]
        simp [h0]
      · rw [List.lookup_cons]
        have : (k == k0) = false := by simp [hk]
        simp [this]
    · rw [if_neg h0]
      by_cases hk : k = k0
      · subst hk
        rw [List.lookup_cons, List.lookup_cons]
        simp [h0]
      · rw [List.lookup_cons, List.lookup_cons]
        have : (k == k0) = false := by simp [hk]
        simp [this, ih]

theorem sanitize_value_id (v : PyVal) (h1 : isLongString v = false)
    (h2 : isBigStructure v = false) : sanitize_value v = v := by
  cases v <;> simp_all [sanitize_value, isLongString, isBigStructure]

theorem sanitize_value_long (s : String) (h : 5000 < s.length) :
    sanitize_value (.str s) = .str (s.take 5000 ++ TRUNC_MARKER) := by
  simp [sanitize_value, h]

theorem sanitize_value_big (v : PyVal) (h : isBigStructure v = true) :
    sanitize_value v = .str LARGE_MARKER := by
  cases v <;> simp_all [sanitize_value, isBigStructure]

theorem str_length_data (s : String) : s.length = s.data.length := rfl

theorem take_length_of_le (s : String) (n : Nat) (h : n ≤ s.length) :
    (s.take n).length = n := by
  have hd : (s.take n).data = s.data.take n := String.data_take s n
  rw [str_length_data, hd, List.length_take]
  rw [str_length_data] at h
  omega

theorem s6000_length : s6000.length = 6000 := by
  show (List.replicate 6000 'a').length = 6000
  rw [List.length_replicate]

theorem trunc_marker_length : TRUNC_MARKER.length = 16 := by decide

theorem truncated_length (s : String) (h : 5000 < s.length) :
    (s.take 5000 ++ TRUNC_MARKER).length = 5016 := by
  rw [String.length_append, take_length_of_le s 5000 (by omega), trunc_marker_length]

/-! ## Claims -/

/-- Claim C1, counterexample: on a 6000-character string field the sanitizer
emits the first 5000 characters plus the marker, and the resulting string has
length 5016, not the claimed 5017 (the marker `"\n... [truncated]"` is 16
characters long, not 17). -/
theorem C1_counterexample :
    getKey (sanitize_result (.dict [((r"msg"), .str s6000)])) (r"msg")
      = some (.str (s6000.take 5000 ++ TRUNC_MARKER))
    ∧ (s6000.take 5000 ++ TRUNC_MARKER).length = 5016
    ∧ (s6000.take 5000 ++ TRUNC_MARKER).length ≠ 5017 := by
  have h6 : 5000 < s6000.length := by rw [s6000_length]; omega
  have hlen : (s6000.take 5000 ++ TRUNC_MARKER).length = 5016 := truncated_length s6000 h6
  refine ⟨?_, hlen, by rw [hlen]; decide⟩
  rw [getKey_sanitize, if_neg (by decide : ¬ (r"msg") ∈ omit_keys)]
  have h2 : ([((r"msg"), PyVal.str s6000)].lookup (r"msg")) = some (PyVal.str s6000) := rfl
  rw [h2, Option.map_some', sanitize_value_long s6000 h6]

/-- Claim C1 (amended): for every mapping input and every non-omitted key
whose value is a string longer than 5000 characters, the sanitized value is
exactly the first 5000 characters followed by the literal marker
`"\n... [truncated]"`; the output string has length exactly 5016 (5000 plus
the 16-character marker) and ends with the marker. -/
theorem C1_string_truncation (kvs : List (String × PyVal)) (k s : String)
    (hk : k ∉ omit_keys) (hfind : kvs.lookup k = some (.str s)) (hlen : 5000 < s.length) :
    getKey (sanitize_result (.dict kvs)) k = some (.str (s.take 5000 ++ TRUNC_MARKER))
    ∧ (s.take 5000 ++ TRUNC_MARKER).length = 5016
    ∧ TRUNC_MARKER.data <:+ (s.take 5000 ++ TRUNC_MARKER).data := by
  refine ⟨?_, truncated_length s hlen, ?_⟩
  · rw [getKey_sanitize, if_neg hk, hfind, Option.map_some', sanitize_value_long s hlen]
  · rw [String.data_append]
    exact List.suffix_append _ _

/-- Claim C1, witness: the amended statement instantiated on a mapping whose
`msg` value is the concrete 6000-character string `s6000`. -/
theorem C1_string_truncation_witness :
    (¬ (r"msg") ∈ omit_keys
      ∧ [((r"msg"), PyVal.str s6000)].lookup (r"msg") = some (PyVal.str s6000)
      ∧ 5000 < s6000.length)
    ∧ (getKey (sanitize_result (.dict [((r"msg"), .str s6000)])) (r"msg")
        = some (.str (s6000.take 5000 ++ TRUNC_MARKER))
      ∧ (s6000.take 5000 ++ TRUNC_MARKER).length = 5016
      ∧ TRUNC_MARKER.data <:+ (s6000.take 5000 ++ TRUNC_MARKER).data) :=
  ⟨⟨by decide, rfl, by rw [s6000_length]; omega⟩,
   C1_string_truncation [((r"msg"), PyVal.str s6000)] (r"msg") s6000 (by decide) rfl
     (by rw [s6000_length]; omega)⟩

/-- Claim C2, counterexample: task `abc` is present in the timing table
(started at instant 5), yet a result arriving at the very same instant gets
duration `None`, because `round(duration, 2) if duration else None` sends a
0.0 elapsed time to `None` by Python falsiness — so duration is not null
*only* when the identifier is unknown. -/
theorem C2_counterexample :
    c2_state.task_start_times.lookup (r"abc") = some 5
    ∧ c2_result.task.uuid = (r"abc")
    ∧ (host_result c2_state c2_result 5).lookup (r"duration") = some PyVal.pynone
    ∧ some PyVal.pynone ≠ some (PyVal.num (pyRound2 (5 - 5))) := by
  have hlook : c2_state.task_start_times.lookup c2_result.task.uuid = some 5 := rfl
  have hraw : duration_raw c2_state.task_start_times c2_result.task.uuid 5 = some 0 := by
    unfold duration_raw
    rw [hlook]
    norm_num
  have hfld : (host_result c2_state c2_result 5).lookup (r"duration")
      = some (duration_field (duration_raw c2_state.task_start_times c2_result.task.uuid 5)) :=
    rfl
  refine ⟨rfl, rfl, ?_, ?_⟩
  · rw [hfld, hraw]
    simp [duration_field]
  · intro h
    simp at h

/-- Claim C2 (amended): for every per-host result whose task identifier was
recorded, the emitted duration equals the elapsed time rounded to two decimal
places provided that elapsed time is not exactly zero; duration is null when
the identifier is unknown or when the elapsed time is exactly zero (Python
falsiness of 0.0). -/
theorem C2_duration (st : CallbackState) (r : TaskResult) (now t0 : ℚ)
    (hfound : st.task_start_times.lookup r.task.uuid = some t0) :
    (now - t0 ≠ 0 →
      (host_result st r now).lookup (r"duration") = some (.num (pyRound2 (now - t0))))
    ∧ (now - t0 = 0 →
      (host_result st r now).lookup (r"duration") = some PyVal.pynone)
    ∧ (∀ st2 r2 now2, (st2 : CallbackState).task_start_times.lookup
          (r2 : TaskResult).task.uuid = Option.none →
        (host_result st2 r2 now2).lookup (r"duration") = some PyVal.pynone) := by
  have hraw : duration_raw st.task_start_times r.task.uuid now = some (now - t0) := by
    unfold duration_raw; rw [hfound]
  refine ⟨?_, ?_, ?_⟩
  · intro hnz
    show some (duration_field (duration_raw st.task_start_times r.task.uuid now)) = _
    rw [hraw]
    simp [duration_field, hnz]
  · intro hz
    show some (duration_field (duration_raw st.task_start_times r.task.uuid now)) = _
    rw [hraw, hz]
    simp [duration_field]
  · intro st2 r2 now2 hun
    have hraw2 : duration_raw st2.task_start_times r2.task.uuid now2 = Option.none := by
      unfold duration_raw; rw [hun]
    show some (duration_field (duration_raw st2.task_start_times r2.task.uuid now2)) = _
    rw [hraw2]
    rfl

/-- Claim C2, witness: task `abc` started at instant 5, its result arrives
2.34 seconds later, and the emitted duration is 2.34. -/
theorem C2_duration_witness :
    (c2_state.task_start_times.lookup c2_result.task.uuid = some 5
      ∧ ((734 : ℚ)/100) - 5 ≠ 0)
    ∧ (host_result c2_state c2_result ((734 : ℚ)/100)).lookup (r"duration")
        = some (.num (pyRound2 (((734 : ℚ)/100) - 5)))
    ∧ pyRound2 (((734 : ℚ)/100) - 5) = (234 : ℚ)/100 :=
  ⟨⟨rfl, by norm_num⟩,
   (C2_duration c2_state c2_result ((734 : ℚ)/100) 5 rfl).1 (by norm_num),
   by norm_num [pyRound2, roundHalfEven]⟩

/-- Claim C3: the omitted keys `ansible_facts` and `ansible_env` never appear
in the sanitizer's output, and every other key whose value is neither an
over-5000-character string nor a structure with an over-10000-character
textual form is mapped to its input value unchanged. -/
theorem C3_omit_and_passthrough (kvs : List (String × PyVal)) (k : String) (v : PyVal)
    (hk : k ∉ omit_keys) (hfind : kvs.lookup k = some v)
    (h1 : isLongString v = false) (h2 : isBigStructure v = false) :
    getKey (sanitize_result (.dict kvs)) (r"ansible_facts") = Option.none
    ∧ getKey (sanitize_result (.dict kvs)) (r"ansible_env") = Option.none
    ∧ getKey (sanitize_result (.dict kvs)) k = some v := by
  refine ⟨?_, ?_, ?_⟩
  · rw [getKey_sanitize, if_pos (by decide : (r"ansible_facts") ∈ omit_keys)]
  · rw [getKey_sanitize, if_pos (by decide : (r"ansible_env") ∈ omit_keys)]
  · rw [getKey_sanitize, if_neg hk, hfind, Option.map_some', sanitize_value_id v h1 h2]

/-- Claim C3, witness: end-to-end scenario B — an input with an
`ansible_facts` mapping and `msg` equal to `"ok"` sanitizes to an output
without `ansible_facts` (and without `ansible_env`) and with `msg` unchanged. -/
theorem C3_omit_and_passthrough_witness :
    (¬ (r"msg") ∈ omit_keys
      ∧ [((r"ansible_facts"), PyVal.dict [((r"os"), PyVal.str (r"linux"))]),
         ((r"msg"), PyVal.str (r"ok"))].lookup (r"msg") = some (PyVal.str (r"ok"))
      ∧ isLongString (PyVal.str (r"ok")) = false
      ∧ isBigStructure (PyVal.str (r"ok")) = false)
    ∧ (getKey (sanitize_result (.dict
          [((r"ansible_facts"), PyVal.dict [((r"os"), PyVal.str (r"linux"))]),
           ((r"msg"), PyVal.str (r"ok"))])) (r"ansible_facts") = Option.none
      ∧ getKey (sanitize_result (.dict
          [((r"ansible_facts"), PyVal.dict [((r"os"), PyVal.str (r"linux"))]),
           ((r"msg"), PyVal.str (r"ok"))])) (r"ansible_env") = Option.none
      ∧ getKey (sanitize_result (.dict
          [((r"ansible_facts"), PyVal.dict [((r"os"), PyVal.str (r"linux"))]),
           ((r"msg"), PyVal.str (r"ok"))])) (r"msg") = some (PyVal.str (r"ok"))) :=
  ⟨⟨by decide, rfl, rfl, rfl⟩,
   C3_omit_and_passthrough _ (r"msg") (PyVal.str (r"ok")) (by decide) rfl rfl rfl⟩

theorem big10001_data_length : big10001.data.length = 10001 := by
  show (List.replicate 10001 'b').length = 10001
  rw [List.length_replicate]

theorem isBig_big10001 : isBigStructure (PyVal.list [PyVal.str big10001]) = true := by
  simp only [isBigStructure]
  rw [decide_eq_true_eq]
  have hv : pyStr (.list [.str big10001])
      = String.mk ('[' :: (('\x27' :: (big10001.data ++ ['\x27'])) ++ [']'])) := rfl
  rw [hv, str_length_data]
  simp only [List.length_cons, List.length_append, big10001_data_length]
  omega

/-- Claim C4: every non-omitted key holding a structured value whose textual
form exceeds 10000 characters is mapped to the literal string
`"[large data omitted]"`; the string-length and aggregate-size guards are
mutually exclusive on any value, and the omit-key check dominates both
(an omitted key never appears whatever its value). -/
theorem C4_large_structure (kvs : List (String × PyVal)) (k : String) (v : PyVal)
    (hk : k ∉ omit_keys) (hfind : kvs.lookup k = some v) (hbig : isBigStructure v = true) :
    getKey (sanitize_result (.dict kvs)) k = some (.str LARGE_MARKER)
    ∧ (∀ w : PyVal, ¬(isLongString w = true ∧ isBigStructure w = true))
    ∧ (∀ k2, k2 ∈ omit_keys → ∀ kvs2, getKey (sanitize_result (.dict kvs2)) k2 = Option.none) := by
  refine ⟨?_, ?_, ?_⟩
  · rw [getKey_sanitize, if_neg hk, hfind, Option.map_some', sanitize_value_big v hbig]
  · intro w hw
    rcases hw with ⟨ha, hb⟩
    cases w <;> simp_all [isLongString, isBigStructure]
  · intro k2 hk2 kvs2
    rw [getKey_sanitize, if_pos hk2]

/-- Claim C4, witness: a list wrapping a 10001-character string (textual form
10005 characters) is replaced by the omission marker. -/
theorem C4_large_structure_witness :
    (¬ (r"out") ∈ omit_keys
      ∧ [((r"out"), PyVal.list [PyVal.str big10001])].lookup (r"out")
          = some (PyVal.list [PyVal.str big10001])
      ∧ isBigStructure (PyVal.list [PyVal.str big10001]) = true)
    ∧ getKey (sanitize_result (.dict [((r"out"), PyVal.list [PyVal.str big10001])])) (r"out")
        = some (.str LARGE_MARKER) :=
  ⟨⟨by decide, rfl, isBig_big10001⟩,
   (C4_large_structure [((r"out"), PyVal.list [PyVal.str big10001])] (r"out")
      (PyVal.list [PyVal.str big10001]) (by decide) rfl isBig_big10001).1⟩

/-- Claim C5: for every task identifier absent from the timing table, the
duration field of the host result is null — the lookup is total, so nothing
is raised, and the value is `None`, not zero — while the remaining fields of
the host result are all still produced and the event is still sent over a
connected channel. -/
theorem C5_unknown_uuid (st : CallbackState) (r : TaskResult) (now : ℚ)
    (hun : st.task_start_times.lookup r.task.uuid = Option.none) :
    (host_result st r now).lookup (r"duration") = some PyVal.pynone
    ∧ payloadKeys (host_result st r now)
        = [(r"host"), (r"task"), (r"task_uuid"), (r"action"), (r"changed"),
           (r"duration"), (r"result")]
    ∧ (∀ h iso, st.sock = some h →
        plugin_send st false iso (r"host_ok") (.dict (host_result st r now))
          = (st, some (envelope_line (r"host_ok") iso (.dict (host_result st r now))))) := by
  have hraw : duration_raw st.task_start_times r.task.uuid now = Option.none := by
    unfold duration_raw
    rw [hun]
  refine ⟨?_, rfl, ?_⟩
  · have hfld : (host_result st r now).lookup (r"duration")
        = some (duration_field (duration_raw st.task_start_times r.task.uuid now)) := rfl
    rw [hfld, hraw]
    rfl
  · intro h iso hs
    unfold plugin_send
    rw [hs]
    rfl

/-- Claim C5, witness: an empty timing table with a concrete result; the
payload is complete, its duration is null, and the send over the connected
state emits the line. -/
theorem C5_unknown_uuid_witness :
    connectedState.task_start_times.lookup sampleResult.task.uuid = Option.none
    ∧ (host_result connectedState sampleResult 3).lookup (r"duration") = some PyVal.pynone
    ∧ payloadKeys (host_result connectedState sampleResult 3)
        = [(r"host"), (r"task"), (r"task_uuid"), (r"action"), (r"changed"),
           (r"duration"), (r"result")]
    ∧ plugin_send connectedState false (r"T") (r"host_ok")
          (.dict (host_result connectedState sampleResult 3))
        = (connectedState,
           some (envelope_line (r"host_ok") (r"T")
             (.dict (host_result connectedState sampleResult 3)))) :=
  ⟨rfl,
   (C5_unknown_uuid connectedState sampleResult 3 rfl).1,
   (C5_unknown_uuid connectedState sampleResult 3 rfl).2.1,
   (C5_unknown_uuid connectedState sampleResult 3 rfl).2.2 0 (r"T") rfl⟩

/-- Claim C6: a send over a connected channel whose write fails is fully
swallowed — the call returns (it is a total function), nothing is emitted for
that event, every attribute of the state (socket handle included) is
unchanged, the manager is not disabled, and a subsequent send on the same
state still emits its line. -/
theorem C6_send_failure (st : CallbackState) (h : Nat) (hs : st.sock = some h)
    (fail : Bool) (iso et : String) (d : PyVal) :
    plugin_send st true iso et d = (st, Option.none)
    ∧ (plugin_send st fail iso et d).1 = st
    ∧ (plugin_send st fail iso et d).1.sock = some h
    ∧ plugin_send st false iso et d = (st, some (envelope_line et iso d)) := by
  unfold plugin_send
  rw [hs]
  refine ⟨rfl, ?_, ?_, rfl⟩
  · cases fail <;> rfl
  · cases fail <;> simp [hs]

/-- Claim C6, witness: the connected sample state with a failing write drops
the event and keeps the state; the following send emits. -/
theorem C6_send_failure_witness :
    connectedState.sock = some 0
    ∧ (plugin_send connectedState true (r"T") (r"host_ok") (.dict [])
          = (connectedState, Option.none)
      ∧ (plugin_send connectedState true (r"T") (r"host_ok") (.dict [])).1 = connectedState
      ∧ (plugin_send connectedState true (r"T") (r"host_ok") (.dict [])).1.sock = some 0
      ∧ plugin_send connectedState false (r"T") (r"host_ok") (.dict [])
          = (connectedState, some (envelope_line (r"host_ok") (r"T") (.dict [])))) :=
  ⟨rfl, C6_send_failure connectedState 0 rfl true (r"T") (r"host_ok") (.dict [])⟩

/-- Claim C7, counterexample: the `host_task_start` payload built by
`v2_runner_on_start` has no `action`, `args`, `path`, `is_handler` or `name`
field at all — it carries only host, task name and task uuid. -/
theorem C7_counterexample :
    (v2_runner_on_start sampleHost sampleTask).1 = (r"host_task_start")
    ∧ getKey (v2_runner_on_start sampleHost sampleTask).2 (r"action") = Option.none
    ∧ getKey (v2_runner_on_start sampleHost sampleTask).2 (r"args") = Option.none
    ∧ getKey (v2_runner_on_start sampleHost sampleTask).2 (r"path") = Option.none
    ∧ getKey (v2_runner_on_start sampleHost sampleTask).2 (r"is_handler") = Option.none
    ∧ getKey (v2_runner_on_start sampleHost sampleTask).2 (r"name") = Option.none :=
  ⟨rfl, rfl, rfl, rfl, rfl, rfl⟩

/-- Claim C7 (amended): every `host_task_start` payload contains exactly the
host name, task name and task uuid; the name, uuid, action, argument mapping,
source location and handler-flag fields listed in the payload table are
carried by `task_start` events (built by `v2_playbook_on_task_start`), not by
`host_task_start`. -/
theorem C7_host_task_start_payload (host : Host) (task : AnsTask)
    (st : CallbackState) (now : ℚ) (c : Bool) :
    (v2_runner_on_start host task).1 = (r"host_task_start")
    ∧ dictKeys (v2_runner_on_start host task).2 = [(r"host"), (r"task"), (r"task_uuid")]
    ∧ getKey (v2_runner_on_start host task).2 (r"host") = some (.str host.name)
    ∧ getKey (v2_runner_on_start host task).2 (r"task") = some (.str task.name)
    ∧ getKey (v2_runner_on_start host task).2 (r"task_uuid") = some (.str task.uuid)
    ∧ (v2_playbook_on_task_start st now task c).2.1 = (r"task_start")
    ∧ dictKeys (v2_playbook_on_task_start st now task c).2.2
        = [(r"name"), (r"uuid"), (r"action"), (r"args"), (r"path"), (r"is_handler")] :=
  ⟨rfl, rfl, rfl, rfl, rfl, rfl, rfl⟩

/-- Claim C8, counterexample: the `item_failed` and `item_skipped` payloads
carry the loop item value but no `item_label` field; only `item_ok` carries
the label. -/
theorem C8_counterexample :
    (v2_runner_item_on_failed connectedState sampleResult 3).1 = (r"item_failed")
    ∧ getKey (v2_runner_item_on_failed connectedState sampleResult 3).2 (r"item_label")
        = Option.none
    ∧ (v2_runner_item_on_skipped connectedState sampleResult 3).1 = (r"item_skipped")
    ∧ getKey (v2_runner_item_on_skipped connectedState sampleResult 3).2 (r"item_label")
        = Option.none
    ∧ getKey (v2_runner_item_on_ok connectedState sampleResult 3).2 (r"item_label")
        = some (.str (r"item")) :=
  ⟨rfl, rfl, rfl, rfl, rfl⟩

/-- Claim C8 (amended): each item event's payload is the corresponding host
result payload plus the loop item value; only `item_ok` additionally carries
the item's label, while `item_failed` and `item_skipped` add the item value
alone and have no label field. -/
theorem C8_item_payloads (st : CallbackState) (r : TaskResult) (now : ℚ) :
    (v2_runner_item_on_ok st r now).1 = (r"item_ok")
    ∧ (v2_runner_item_on_failed st r now).1 = (r"item_failed")
    ∧ (v2_runner_item_on_skipped st r now).1 = (r"item_skipped")
    ∧ dictKeys (v2_runner_item_on_ok st r now).2
        = payloadKeys (host_result st r now) ++ [(r"item"), (r"item_label")]
    ∧ dictKeys (v2_runner_item_on_failed st r now).2
        = payloadKeys (host_result st r now) ++ [(r"item")]
    ∧ dictKeys (v2_runner_item_on_skipped st r now).2
        = payloadKeys (host_result st r now) ++ [(r"item")]
    ∧ getKey (v2_runner_item_on_ok st r now).2 (r"item")
        = some (dictGetD r.result (r"item") (.str ("")))
    ∧ getKey (v2_runner_item_on_ok st r now).2 (r"item_label")
        = some (dictGetD r.result (r"ansible_loop_var") (.str (r"item")))
    ∧ getKey (v2_runner_item_on_failed st r now).2 (r"item")
        = some (dictGetD r.result (r"item") (.str ("")))
    ∧ getKey (v2_runner_item_on_failed st r now).2 (r"item_label") = Option.none
    ∧ getKey (v2_runner_item_on_skipped st r now).2 (r"item_label") = Option.none :=
  ⟨rfl, rfl, rfl, rfl, rfl, rfl, rfl, rfl, rfl, rfl, rfl⟩

/-- Claim C9: every emitted line has exactly one newline, which terminates
it; the envelope has exactly the three top-level keys `type`, `timestamp` and
`data`; its timestamp is the clock reading taken inside the send with a `Z`
suffix; serialization is total and coerces a non-serializable object to the
JSON string of its textual representation; and the event type of every hook
belongs to the fixed EventKind enumeration. -/
theorem C9_envelope (et iso : String) (d : PyVal) (s : String)
    (st : CallbackState) (now : ℚ) (fn nm uid : String) (hosts serial : PyVal)
    (task : AnsTask) (c : Bool) (stats : List (String × List (String × PyVal)))
    (hostsL : List Host) (host : Host) (r : TaskResult) (ie : Bool) :
    ((envelope_line et iso d).data.count '\n') = 1
    ∧ (envelope_line et iso d).data.getLast? = some '\n'
    ∧ dictKeys (envelope_obj et iso d) = [(r"type"), (r"timestamp"), (r"data")]
    ∧ getKey (envelope_obj et iso d) (r"type") = some (.str et)
    ∧ getKey (envelope_obj et iso d) (r"timestamp") = some (.str (iso ++ (r"Z")))
    ∧ jsonSerL (.obj s) = jsonStrL s
    ∧ (v2_playbook_on_start st now fn).2.1 ∈ eventKinds
    ∧ (v2_playbook_on_play_start st now nm uid hosts serial).2.1 ∈ eventKinds
    ∧ (v2_playbook_on_task_start st now task c).2.1 ∈ eventKinds
    ∧ (v2_playbook_on_handler_task_start st now task).2.1 ∈ eventKinds
    ∧ (v2_playbook_on_stats st now stats).1 ∈ eventKinds
    ∧ (v2_playbook_on_include fn hostsL).1 ∈ eventKinds
    ∧ (v2_runner_on_start host task).1 ∈ eventKinds
    ∧ (v2_runner_on_ok st r now).1 ∈ eventKinds
    ∧ (v2_runner_on_failed st r now ie).1 ∈ eventKinds
    ∧ (v2_runner_on_skipped st r now).1 ∈ eventKinds
    ∧ (v2_runner_on_unreachable st r now).1 ∈ eventKinds
    ∧ (v2_runner_item_on_ok st r now).1 ∈ eventKinds
    ∧ (v2_runner_item_on_failed st r now).1 ∈ eventKinds
    ∧ (v2_runner_item_on_skipped st r now).1 ∈ eventKinds
    ∧ (v2_runner_retry st r now).1 ∈ eventKinds
    ∧ (∀ e ∈ v2_on_file_diff r, e.1 ∈ eventKinds) := by
  have hnl := nl_jsonSerL (envelope_obj et iso d)
  refine ⟨?_, ?_, rfl, rfl, rfl, rfl,
    (by decide : (r"playbook_start") ∈ eventKinds),
    (by decide : (r"play_start") ∈ eventKinds),
    (by decide : (r"task_start") ∈ eventKinds),
    (by decide : (r"task_start") ∈ eventKinds),
    (by decide : (r"playbook_complete") ∈ eventKinds),
    (by decide : (r"include") ∈ eventKinds),
    (by decide : (r"host_task_start") ∈ eventKinds),
    (by decide : (r"host_ok") ∈ eventKinds),
    (by decide : (r"host_failed") ∈ eventKinds),
    (by decide : (r"host_skipped") ∈ eventKinds),
    (by decide : (r"host_unreachable") ∈ eventKinds),
    (by decide : (r"item_ok") ∈ eventKinds),
    (by decide : (r"item_failed") ∈ eventKinds),
    (by decide : (r"item_skipped") ∈ eventKinds),
    (by decide : (r"host_retry") ∈ eventKinds), ?_⟩
  · show (jsonSerL (envelope_obj et iso d) ++ ['\n']).count '\n' = 1
    rw [List.count_append, List.count_eq_zero.mpr hnl]
    rfl
  · show (jsonSerL (envelope_obj et iso d) ++ ['\n']).getLast? = some '\n'
    exact List.getLast?_concat _
  · intro e he
    simp only [v2_on_file_diff] at he
    split at he
    · simp only [Option.mem_def, Option.some.injEq] at he
      subst he
      exact (by decide : (r"file_diff") ∈ eventKinds)
    · simp at he

/-- Claim C9, witness: the statement instantiated on a concrete envelope and
on a result carrying a truthy diff, so that the file-diff event is actually
produced and its kind checked. -/
theorem C9_envelope_witness :
    ((envelope_line (r"host_ok") (r"T") (.dict [])).data.count '\n') = 1
    ∧ (envelope_line (r"host_ok") (r"T") (.dict [])).data.getLast? = some '\n'
    ∧ dictKeys (envelope_obj (r"host_ok") (r"T") (.dict []))
        = [(r"type"), (r"timestamp"), (r"data")]
    ∧ getKey (envelope_obj (r"host_ok") (r"T") (.dict [])) (r"timestamp")
        = some (.str ((r"T") ++ (r"Z")))
    ∧ jsonSerL (.obj (r"o")) = jsonStrL (r"o")
    ∧ (r"file_diff") ∈ eventKinds :=
  ⟨(C9_envelope (r"host_ok") (r"T") (.dict []) (r"o") connectedState 3 (r"f") (r"n")
      (r"u") .pynone .pynone sampleTask false [] [] sampleHost diffResult false).1,
   (C9_envelope (r"host_ok") (r"T") (.dict []) (r"o") connectedState 3 (r"f") (r"n")
      (r"u") .pynone .pynone sampleTask false [] [] sampleHost diffResult false).2.1,
   (C9_envelope (r"host_ok") (r"T") (.dict []) (r"o") connectedState 3 (r"f") (r"n")
      (r"u") .pynone .pynone sampleTask false [] [] sampleHost diffResult false).2.2.1,
   (C9_envelope (r"host_ok") (r"T") (.dict []) (r"o") connectedState 3 (r"f") (r"n")
      (r"u") .pynone .pynone sampleTask false [] [] sampleHost diffResult
      false).2.2.2.2.1,
   (C9_envelope (r"host_ok") (r"T") (.dict []) (r"o") connectedState 3 (r"f") (r"n")
      (r"u") .pynone .pynone sampleTask false [] [] sampleHost diffResult
      false).2.2.2.2.2.1,
   (C9_envelope (r"host_ok") (r"T") (.dict []) (r"o") connectedState 3 (r"f") (r"n")
      (r"u") .pynone .pynone sampleTask false [] [] sampleHost diffResult
      false).2.2.2.2.2.2.2.2.2.2.2.2.2.2.2.2.2.2.2.2.2
     ((r"file_diff"),
      .dict [((r"host"), .str diffResult.host.name),
             ((r"task"), .str diffResult.task.name),
             ((r"diff"), dictGetD diffResult.result (r"diff") (.pynone))]) rfl⟩

/-- Claim C10: when the stats hook runs with no recorded run start time, the
`playbook_complete` event is still built — its duration field is exactly the
number 0, neither null nor an error — and it is still sent over a connected
channel. -/
theorem C10_stats_without_start (st : CallbackState) (now : ℚ)
    (stats : List (String × List (String × PyVal)))
    (h : st.start_time = Option.none) :
    (v2_playbook_on_stats st now stats).1 = (r"playbook_complete")
    ∧ getKey (v2_playbook_on_stats st now stats).2 (r"duration") = some (.num 0)
    ∧ (∀ hs iso, st.sock = some hs →
        plugin_send st false iso (v2_playbook_on_stats st now stats).1
            (v2_playbook_on_stats st now stats).2
          = (st, some (envelope_line (r"playbook_complete") iso
              (v2_playbook_on_stats st now stats).2))) := by
  have hdur : stats_duration st.start_time now = 0 := by
    unfold stats_duration
    rw [h]
  have hr2 : pyRound2 (stats_duration st.start_time now) = 0 := by
    rw [hdur]
    norm_num [pyRound2, roundHalfEven]
  refine ⟨rfl, ?_, ?_⟩
  · have hfld : getKey (v2_playbook_on_stats st now stats).2 (r"duration")
        = some (.num (pyRound2 (stats_duration st.start_time now))) := rfl
    rw [hfld, hr2]
  · intro hs iso hsock
    unfold plugin_send
    rw [hsock]
    rfl

/-- Claim C10, witness: the connected state has no start time recorded; the
stats hook still yields a `playbook_complete` payload with duration 0 and the
send emits it. -/
theorem C10_stats_without_start_witness :
    connectedState.start_time = Option.none
    ∧ (v2_playbook_on_stats connectedState 7 []).1 = (r"playbook_complete")
    ∧ getKey (v2_playbook_on_stats connectedState 7 []).2 (r"duration") = some (.num 0)
    ∧ plugin_send connectedState false (r"T") (v2_playbook_on_stats connectedState 7 []).1
          (v2_playbook_on_stats connectedState 7 []).2
        = (connectedState, some (envelope_line (r"playbook_complete") (r"T")
            (v2_playbook_on_stats connectedState 7 []).2)) :=
  ⟨rfl,
   (C10_stats_without_start connectedState 7 [] rfl).1,
   (C10_stats_without_start connectedState 7 [] rfl).2.1,
   (C10_stats_without_start connectedState 7 [] rfl).2.2 0 (r"T") rfl⟩
